import Mathlib

/-!
Shallow embedding of the `rollout` package (a rotating, buffered log writer in Go).

Layers, following the source:
* `BufferWriter` (file.go): a `bufio.Writer`-like buffered writer over an abstract
  sink (`io.Writer`), with a latched (sticky) error.
* `Rollout` (rollout.go): the orchestrator that computes rotation buckets from a
  clock, swaps destination buffers at bucket boundaries, and exposes
  Write/Flush/Close.
* Destination resolution (rollout.go): Go `text/template` rendering of the
  destination name plus `filepath.Join` with the root.

Bytes are modelled as `Nat`; machine `int`/`int64` as `Int` (no overflow is
exercised); Go integer division (truncation toward zero) as `Int.tdiv`.
Errors are an inductive `GoErr`; a Go `error` value is `Option GoErr` (`none` = nil).
The sink (`io.Writer`) is a state machine `SinkModel σ`: `write` takes the sink
state and the byte slice and returns the new state, the count accepted, and an
error.  `BufferWriter`'s fixed byte array `buf` plus count `n` is modelled as the
list `data` of the `n` currently held bytes together with the capacity `cap`
(`len(b.buf)`); bytes of the array beyond `n` are junk in the source and carry no
information.  Under this representation `copy(b.buf[b.n:], p)` is
`data ++ p.take (cap - data.length)` and the flush compaction
`copy(b.buf[0:b.n-n], b.buf[n:b.n]); b.n -= n` is `data.drop n`.

`BufferWriter.Write`'s overflow loop `for len(p) > 0 { ... }` in the source has no
termination guarantee (it does not recheck `b.err`), so the loop is embedded with
explicit fuel and returns `none` when the fuel runs out; a `none` for every fuel
value is a genuine infinite loop of the source.
-/

/-- Error values (Go `error`). `sinkErr k` stands for a distinguishable error
returned by the underlying sink, `shortWrite` for `io.ErrShortWrite`,
`closed` for `ErrClosed`, `factoryErr k` for an error returned by a `BufferFunc`. -/
inductive GoErr where
  | shortWrite : GoErr
  | sinkErr : Nat → GoErr
  | closed : GoErr
  | factoryErr : Nat → GoErr
  deriving DecidableEq, Repr

/-- An abstract `io.Writer` sink: from a state and a byte slice, produce the new
state, the number of bytes accepted, and an error (`none` = nil). -/
structure SinkModel (σ : Type) where
  write : σ → List Nat → σ × Nat × Option GoErr

/-- The `io.Writer` contract: a sink never reports more bytes accepted than given. -/
def SinkModel.Wf {σ : Type} (S : SinkModel σ) : Prop :=
  ∀ s p, (S.write s p).2.1 ≤ p.length

/-- Structure `BufferWriter` (file.go): latched error `err`, held bytes `data` (the first
`n` cells of the fixed array `buf`), and capacity `cap` (`len(b.buf)`). -/
structure BufferWriter where
  err : Option GoErr
  data : List Nat
  cap : Nat
  deriving DecidableEq, Repr

namespace BufferWriter

/-- Method `Buffered()`: number of bytes currently held (`b.n`). -/
def Buffered (b : BufferWriter) : Nat := b.data.length

/-- Method `Available()`: unused bytes in the buffer (`len(b.buf) - b.n`). -/
def Available (b : BufferWriter) : Nat := b.cap - b.data.length

/-- Well-formedness maintained by `NewWriterSize` and all operations:
the held count never exceeds capacity, and capacity is positive
(`NewWriterSize` replaces a size `<= 0` by the 4096 default). -/
def Wf (b : BufferWriter) : Prop := b.data.length ≤ b.cap ∧ 0 < b.cap

/-- Method `Flush` (file.go): latched error returned at once; empty buffer is a no-op;
otherwise write the held bytes to the sink, turn a short write without error into
`io.ErrShortWrite`, and on any error compact the unwritten tail to the front
(`data.drop n`), latch the error, and return it; on success reset the count. -/
def Flush {σ : Type} (S : SinkModel σ) (b : BufferWriter) (s : σ) :
    BufferWriter × σ × Option GoErr :=
  match b.err with
  | some e => (b, s, some e)
  | none =>
    if b.data.length = 0 then (b, s, none)
    else
      let r := S.write s b.data
      let werr : Option GoErr :=
        if r.2.1 < b.data.length ∧ r.2.2 = none then some GoErr.shortWrite else r.2.2
      match werr with
      | some e => ({ b with data := b.data.drop r.2.1, err := some e }, r.1, some e)
      | none => ({ b with data := [] }, r.1, none)

/-- The overflow loop of `Write` (file.go):
`for len(p) > 0 { n = copy(b.buf[b.n:], p); b.n += n; b.Flush(); nn += n; p = p[n:] }`.
The source loop has no fuel; `none` means the fuel ran out before the loop left. -/
def writeLoop {σ : Type} (S : SinkModel σ) :
    Nat → BufferWriter → σ → List Nat → Nat → Option (BufferWriter × σ × Nat)
  | 0, _, _, _, _ => none
  | fuel + 1, b, s, p, nn =>
    if p.length = 0 then some (b, s, nn)
    else
      let k := min (b.cap - b.data.length) p.length
      let b1 : BufferWriter := { b with data := b.data ++ p.take k }
      let fr := Flush S b1 s
      writeLoop S fuel fr.1 fr.2.1 (p.drop k) (nn + k)

/-- Method `Write` (file.go).  If the input exceeds the available capacity and no error is
latched: for an empty buffer write `p` directly to the sink (latching its error),
otherwise run the overflow loop; either way return `(nn, b.err)`.  Otherwise copy
what fits into the buffer and return the copied count with nil error. -/
def Write {σ : Type} (S : SinkModel σ) (fuel : Nat) (b : BufferWriter) (s : σ)
    (p : List Nat) : Option (BufferWriter × σ × Nat × Option GoErr) :=
  if p.length > b.Available ∧ b.err = none then
    if b.Buffered = 0 then
      let r := S.write s p
      some ({ b with err := r.2.2 }, r.1, r.2.1, r.2.2)
    else
      match writeLoop S fuel b s p 0 with
      | none => none
      | some (b', s', nn) => some (b', s', nn, b'.err)
  else
    let k := min b.Available p.length
    some ({ b with data := b.data ++ p.take k }, s, k, none)

end BufferWriter

/-- A sink that accepts everything and never fails, recording the bytes received
(the `bytes.Buffer` used by the repository's tests). -/
def bytesBuffer : SinkModel (List Nat) :=
  ⟨fun s p => (s ++ p, p.length, none)⟩

/-- A sink that always fails having accepted zero bytes. -/
def zeroFailSink : SinkModel Unit :=
  ⟨fun _ _ => ((), 0, some (GoErr.sinkErr 0))⟩

example : bytesBuffer.Wf := fun _ _ => le_refl _
example : zeroFailSink.Wf := fun _ _ => Nat.zero_le _

/-! ## Destination templates (Go `text/template`, as used by rollout.go)

The package renders its destination-name template with the data map
`{"Pid": pid, "Host": host, "Time": t.Format(r.timeFormat)}`.  The embedding
models the fragment of `text/template` these templates can use: literal text and
actions of the form `{{.Field}}`.  An action whose contents do not start with a
dot (e.g. `{{Time}}`) is an identifier, which `text/template` resolves as a
function name at parse time; no functions are registered, so such a template
fails to parse (`function "Time" not defined`).  Executing a field missing from
the data map writes `<no value>` (the default `missingkey` option for maps). -/

def lbrace : Char := Char.ofNat 123

def rbrace : Char := Char.ofNat 125

/-- One node of a parsed template: literal text or a `{{.Field}}` action. -/
inductive TplItem where
  | lit : String → TplItem
  | field : String → TplItem
  deriving DecidableEq, Repr

/-- Scan to the closing braces of an action: `(inside, rest)`. -/
def splitAct : Nat → List Char → Option (List Char × List Char)
  | 0, _ => none
  | _ + 1, [] => none
  | fuel + 1, c :: cs =>
    if c = rbrace ∧ cs.head? = some rbrace then some ([], cs.tail)
    else
      match splitAct fuel cs with
      | none => none
      | some (a, r) => some (c :: a, r)

def isIdentChar (c : Char) : Bool := c.isAlphanum || c = '_'

/-- Parse the contents of one action.  `.Field` is a field reference; a bare
identifier is an undefined function, and anything else is likewise a parse
error (`none`). -/
def parseAct (inside : List Char) : Option TplItem :=
  let t := (((inside.dropWhile (· = ' ')).reverse.dropWhile (· = ' ')).reverse)
  match t with
  | '.' :: rest =>
    if rest ≠ [] ∧ rest.all isIdentChar then some (TplItem.field (String.mk rest)) else none
  | _ => none

/-- Prepend a literal character to a parsed item list, merging adjacent text. -/
def consLit (c : Char) : List TplItem → List TplItem
  | TplItem.lit s :: items => TplItem.lit (String.mk (c :: s.data)) :: items
  | items => TplItem.lit (String.mk [c]) :: items

/-- Scanner for the template body. -/
def scanTpl : Nat → List Char → Option (List TplItem)
  | 0, _ => none
  | _ + 1, [] => some []
  | fuel + 1, c :: cs =>
    if c = lbrace ∧ cs.head? = some lbrace then
      match splitAct (cs.tail.length + 1) cs.tail with
      | none => none
      | some (inside, rest) =>
        match parseAct inside, scanTpl fuel rest with
        | some item, some items => some (item :: items)
        | _, _ => none
    else
      match scanTpl fuel cs with
      | none => none
      | some items => some (consLit c items)

/-- Model of `template.Parse` on the fragment used by the package. -/
def parseTpl (s : String) : Option (List TplItem) :=
  scanTpl (s.data.length + 1) s.data

/-- Model of `template.Execute` with the data map rollout.go supplies. -/
def execTpl (host pidStr timeStr : String) : List TplItem → String
  | [] => ""
  | TplItem.lit s :: rest => s ++ execTpl host pidStr timeStr rest
  | TplItem.field f :: rest =>
    (if f = "Host" then host
     else if f = "Pid" then pidStr
     else if f = "Time" then timeStr
     else "<no value>") ++ execTpl host pidStr timeStr rest

/-! ## Time formatting (Go `time.Format`, restricted to the numeric layout
tokens `2006 01 02 15 04 05` that the package's formats use; times are UTC
instants given by their Unix seconds). -/

/-- A `time.Time` instant, by its Unix seconds (`t.Unix()`). -/
structure GoTime where
  unix : Int
  deriving DecidableEq, Repr

/-- Civil date from days since the Unix epoch (proleptic Gregorian):
`(year, month, day)`. -/
def civilFromDays (z0 : Int) : Int × Nat × Nat :=
  let z := z0 + 719468
  let era : Int := z.fdiv 146097
  let doe : Nat := (z - era * 146097).toNat
  let yoe : Nat := (doe - doe / 1460 + doe / 36524 - doe / 146096) / 365
  let doy : Nat := doe - (365 * yoe + yoe / 4 - yoe / 100)
  let mp : Nat := (5 * doy + 2) / 153
  let d : Nat := doy - (153 * mp + 2) / 5 + 1
  let m : Nat := if mp < 10 then mp + 3 else mp - 9
  (era * 400 + yoe + (if m ≤ 2 then 1 else 0), m, d)

def pad2 (n : Nat) : String :=
  if n < 10 then "0" ++ toString n else toString n

def pad4 (y : Int) : String :=
  if y < 0 then "-" ++ toString (-y)
  else
    let s := toString y.toNat
    String.mk (List.replicate (4 - s.length) '0') ++ s

/-- Render a layout string against broken-down time components. -/
def goFormat (year : Int) (month day hour minute second : Nat) :
    List Char → String
  | '2' :: '0' :: '0' :: '6' :: rest =>
    pad4 year ++ goFormat year month day hour minute second rest
  | '0' :: '1' :: rest => pad2 month ++ goFormat year month day hour minute second rest
  | '0' :: '2' :: rest => pad2 day ++ goFormat year month day hour minute second rest
  | '1' :: '5' :: rest => pad2 hour ++ goFormat year month day hour minute second rest
  | '0' :: '4' :: rest => pad2 minute ++ goFormat year month day hour minute second rest
  | '0' :: '5' :: rest => pad2 second ++ goFormat year month day hour minute second rest
  | c :: rest => String.mk [c] ++ goFormat year month day hour minute second rest
  | [] => ""

/-- Model of `t.Format(layout)` for a UTC instant. -/
def GoTime.Format (t : GoTime) (layout : String) : String :=
  let days := t.unix.fdiv 86400
  let sod : Nat := (t.unix - days * 86400).toNat
  let c := civilFromDays days
  goFormat c.1 c.2.1 c.2.2 (sod / 3600) (sod % 3600 / 60) (sod % 60) layout.data

/-- Model of `filepath.Join(root, name)`: non-empty elements joined with `/`.  The
`Clean` pass of `filepath.Join` is the identity on every path the package
builds here (no `.`/`..` segments, no duplicate separators), so it is omitted. -/
def joinPath (root name : String) : String :=
  if root = "" then name else root ++ "/" ++ name

/-! ## Rollout (rollout.go)

The orchestrator's state: configuration fixed by `New` plus the mutable fields
guarded by `r.mux`.  The active `rolloutBuffer` is modelled as `some (id, pos)`
where `id` is an identity drawn from `nextId` (used to observe which buffer the
factory created and which buffer got closed) and `pos` is the rotation bucket it
was created for.  The destination buffer itself is an external collaborator (a
`Buffer` produced by the pluggable `BufferFunc`), so each step takes the
collaborator's response as a parameter: `factoryRes` is what `bufferFunc` would
return at this step (`none` = a fresh buffer), `bufRes`/`flushRes`/`closeRes`
what the active buffer's Write/Flush/Close would return. -/

def defaultBufferSize : Nat := 4096

def defaultDestTamplate : String := "rollout-\x7b\x7b.Time\x7d\x7d.log"

def defaultTimeFormat : String := "2006-01-02"

def RotateSecondly : Int := 1

def RotateMinutely : Int := 60 * RotateSecondly

def RotateHourly : Int := 60 * RotateMinutely

def RotateDaily : Int := 24 * RotateHourly

def RotateWeekly : Int := 7 * RotateDaily

/-- Function `New`'s template handling (rollout.go:159-163).  Go's
`(*Template).Parse` returns `(nil, err)` on a parse error, so after a failed
parse the fallback line `tpl, _ = tpl.Parse(defaultDestTamplate)` calls `Parse`
on the nil `*Template` just returned, and `t.init` dereferences the nil
receiver: `New` panics and never returns for an unparseable template.  `none`
models that panic; the intended fallback to the default template is never
reached. -/
def mkTemplate (s : String) : Option (List TplItem) :=
  match parseTpl s with
  | some items => some items
  | none => none

/-- Structure `Rollout`: configuration plus the mutable `buf`/`closed` state. -/
structure Rollout where
  interval : Int
  zoneOffset : Int
  root : String
  tpl : List TplItem
  timeFormat : String
  closed : Bool
  buf : Option (Nat × Int)
  nextId : Nat
  deriving DecidableEq, Repr

/-- Method `Rollout.position`: truncated division of the (possibly zone-adjusted)
Unix seconds by the rotation interval. -/
def Rollout.position (r : Rollout) (t : GoTime) : Int :=
  let timestamp := if r.interval ≥ RotateDaily then t.unix + r.zoneOffset else t.unix
  timestamp.tdiv r.interval

/-- Method `Rollout.destination`: the template executed with `Pid`, `Host` and the
formatted time, joined under `root`. -/
def Rollout.destination (r : Rollout) (host : String) (pid : Nat) (t : GoTime) : String :=
  joinPath r.root (execTpl host (toString pid) (t.Format r.timeFormat) r.tpl)

/-- Observable side effects of one `Rollout.Write` step on destination buffers. -/
structure WriteEffect where
  created : Option Nat
  closedOld : Option Nat
  deriving DecidableEq, Repr

/-- The rotation arm of `Rollout.Write`: call the factory; on error return it
with zero bytes and leave the state untouched; on success swap in the fresh
buffer (identity `r.nextId`) and report the superseded buffer as closed. -/
def Rollout.rotate (r : Rollout) (pos : Int) (factoryRes : Option GoErr)
    (bufRes : Nat × Option GoErr) : Rollout × (Nat × Option GoErr) × WriteEffect :=
  match factoryRes with
  | some e => (r, (0, some e), ⟨none, none⟩)
  | none =>
    ({ r with buf := some (r.nextId, pos), nextId := r.nextId + 1 },
     bufRes, ⟨some r.nextId, r.buf.map Prod.fst⟩)

/-- Method `Rollout.Write` (rollout.go): fail with `ErrClosed` when closed; otherwise
compute the bucket and, when there is no active buffer or its bucket differs,
rotate (`r.buf == nil || r.buf.pos != pos`); finally delegate the write to the
now-current buffer, returning its response verbatim. -/
def Rollout.Write (r : Rollout) (t : GoTime) (factoryRes : Option GoErr)
    (bufRes : Nat × Option GoErr) : Rollout × (Nat × Option GoErr) × WriteEffect :=
  if r.closed then (r, (0, some GoErr.closed), ⟨none, none⟩)
  else
    let pos := r.position t
    match r.buf with
    | none => r.rotate pos factoryRes bufRes
    | some b =>
      if b.2 = pos then (r, bufRes, ⟨none, none⟩)
      else r.rotate pos factoryRes bufRes

/-- Method `Rollout.Flush` (rollout.go): nothing when no buffer exists, else delegate
to the active buffer's Flush.  The `closed` flag is never consulted. -/
def Rollout.Flush (r : Rollout) (flushRes : Option GoErr) : Option GoErr :=
  match r.buf with
  | none => none
  | some _ => flushRes

/-- Method `Rollout.Close` (rollout.go): success immediately when already closed; else
mark closed and, when a buffer exists, delegate Close to it (third component:
the identity of the buffer whose Close was invoked). -/
def Rollout.Close (r : Rollout) (closeRes : Option GoErr) :
    Rollout × Option GoErr × Option Nat :=
  if r.closed then (r, none, none)
  else
    let r' := { r with closed := true }
    match r.buf with
    | none => (r', none, none)
    | some b => (r', closeRes, some b.1)

/-! ## Sinks and the claim-words overflow cycle -/

/-- A sink that, on its first call, accepts two bytes and reports an error, and
afterwards fails every call having accepted nothing (state = calls made). -/
def acceptTwoThenFailSink : SinkModel Nat :=
  ⟨fun s p =>
    if s = 0 then (1, min 2 p.length, some (GoErr.sinkErr 1))
    else (s + 1, 0, some (GoErr.sinkErr 1))⟩

/-- The overflow cycle as claim C1 words it (NOT as the source implements it):
copy as much as fits, flush, and stop as soon as a flush reports an error,
returning the bytes consumed up to that point.  Kept only to compare with
`BufferWriter.writeLoop`, which does not stop on a flush error. -/
def specOverflowCycles {σ : Type} (S : SinkModel σ) :
    Nat → BufferWriter → σ → List Nat → Nat → Option (BufferWriter × σ × Nat)
  | 0, _, _, _, _ => none
  | fuel + 1, b, s, p, nn =>
    if p.length = 0 then some (b, s, nn)
    else
      let k := min (b.cap - b.data.length) p.length
      let b1 : BufferWriter := { b with data := b.data ++ p.take k }
      let fr := BufferWriter.Flush S b1 s
      match fr.2.2 with
      | some _ => some (fr.1, fr.2.1, nn + k)
      | none => specOverflowCycles S fuel fr.1 fr.2.1 (p.drop k) (nn + k)

/-! ## Theorems -/

/-- C2 (counterexample): at rotation interval `RotateMinutely` and Unix second
`-1` (before the epoch), `position` is `0` — Go division truncates toward zero —
while the floor of `-1 / 60` is `-1`, so `position` is not the floor for
negative timestamps as the claim states. -/
theorem C2_counterexample :
    Rollout.position ⟨RotateMinutely, 0, "", [], "", false, none, 0⟩ ⟨-1⟩ = 0 ∧
    Int.fdiv (-1) RotateMinutely = -1 ∧ (0 : Int) ≠ -1 := by
  refine ⟨by decide, by decide, by decide⟩

/-- C2 (amended): for every interval `i > 0`, `position` is the quotient of the
(zone-adjusted iff `i ≥ RotateDaily`) Unix seconds by `i` TRUNCATED TOWARD ZERO;
this agrees with the floor whenever the adjusted timestamp is nonnegative, and
for sub-day intervals the result is independent of the zone offset. -/
theorem C2_position_truncated (i z u : Int) (hi : 0 < i) :
    Rollout.position ⟨i, z, "", [], "", false, none, 0⟩ ⟨u⟩
        = (if i ≥ RotateDaily then u + z else u).tdiv i ∧
    (0 ≤ (if i ≥ RotateDaily then u + z else u) →
      Rollout.position ⟨i, z, "", [], "", false, none, 0⟩ ⟨u⟩
        = (if i ≥ RotateDaily then u + z else u).fdiv i) ∧
    (i < RotateDaily → ∀ z' : Int,
      Rollout.position ⟨i, z', "", [], "", false, none, 0⟩ ⟨u⟩ = u.tdiv i) := by
  refine ⟨rfl, ?_, ?_⟩
  · intro h
    have h0 : Rollout.position ⟨i, z, "", [], "", false, none, 0⟩ ⟨u⟩
        = (if i ≥ RotateDaily then u + z else u).tdiv i := rfl
    rw [h0, Int.tdiv_eq_ediv h hi.le, Int.fdiv_eq_ediv _ hi.le]
  · intro hlt z'
    have h0 : Rollout.position ⟨i, z', "", [], "", false, none, 0⟩ ⟨u⟩
        = (if i ≥ RotateDaily then u + z' else u).tdiv i := rfl
    rw [h0, if_neg (not_le.mpr hlt)]

theorem C2_position_truncated_witness :
    (0 : Int) < 60 ∧
    Rollout.position ⟨60, 5, "", [], "", false, none, 0⟩ ⟨127⟩ = Int.tdiv 127 60 :=
  ⟨by decide, ((C2_position_truncated 60 5 127 (by decide)).1).trans (by decide)⟩

/-- C10: `Rollout.Flush` never consults the `closed` flag.  After the first
`Close` on a writer with an active buffer, the buffer reference is retained, so
`Flush` delegates to the (already closed) buffer and returns whatever that call
yields — not `ErrClosed` and not an unconditional success. -/
theorem C10_flush_after_close (r : Rollout) (id : Nat) (pos : Int)
    (closeRes flushRes : Option GoErr)
    (hbuf : r.buf = some (id, pos)) (hcl : r.closed = false) :
    ((Rollout.Close r closeRes).1).buf = some (id, pos) ∧
    ((Rollout.Close r closeRes).1).closed = true ∧
    Rollout.Flush (Rollout.Close r closeRes).1 flushRes = flushRes := by
  simp [Rollout.Close, Rollout.Flush, hcl, hbuf]

theorem C10_flush_after_close_witness :
    Rollout.Flush
        (Rollout.Close ⟨RotateDaily, 0, "", [], "", false, some (0, 17), 1⟩ none).1
        (some (GoErr.sinkErr 3))
      = some (GoErr.sinkErr 3) :=
  (C10_flush_after_close ⟨RotateDaily, 0, "", [], "", false, some (0, 17), 1⟩ 0 17
      none (some (GoErr.sinkErr 3)) rfl rfl).2.2

/-- Function `position` reads only the configuration fields, so updating `buf`/`nextId`
leaves it unchanged. -/
theorem position_buf_irrel (r : Rollout) (b : Option (Nat × Int)) (k : Nat) (t : GoTime) :
    Rollout.position { r with buf := b, nextId := k } t = r.position t := rfl

/-- C3: rotation step of `Rollout.Write`.  Two writes at `t1` then `t2` on an
open writer with differing buckets: the second write swaps in a brand-new buffer
created by the factory and closes the superseded one exactly once; a factory
error yields zero bytes and the error with the previous buffer left current; a
write in the same bucket reuses the current buffer, creating and closing
nothing. -/
theorem C3_rotation_step (r : Rollout) (t1 t2 : GoTime)
    (bres bres2 : Nat × Option GoErr) (hcl : r.closed = false) :
    (r.buf = none → r.position t1 ≠ r.position t2 →
      Rollout.Write r t1 none bres =
        ({ r with buf := some (r.nextId, r.position t1), nextId := r.nextId + 1 },
         bres, ⟨some r.nextId, none⟩) ∧
      Rollout.Write { r with buf := some (r.nextId, r.position t1),
                             nextId := r.nextId + 1 } t2 none bres2 =
        ({ r with buf := some (r.nextId + 1, r.position t2), nextId := r.nextId + 2 },
         bres2, ⟨some (r.nextId + 1), some r.nextId⟩)) ∧
    (∀ e, r.buf = none →
      Rollout.Write r t2 (some e) bres = (r, (0, some e), ⟨none, none⟩)) ∧
    (∀ e id p1, r.buf = some (id, p1) → p1 ≠ r.position t2 →
      Rollout.Write r t2 (some e) bres = (r, (0, some e), ⟨none, none⟩)) ∧
    (∀ id, r.buf = some (id, r.position t2) →
      Rollout.Write r t2 none bres = (r, bres, ⟨none, none⟩)) := by
  refine ⟨?_, ?_, ?_, ?_⟩
  · intro hb hne
    constructor
    · simp [Rollout.Write, Rollout.rotate, hcl, hb]
    · simp only [Rollout.position] at hne
      simp [Rollout.Write, Rollout.rotate, Rollout.position, hcl, hb, hne]
  · intro e hb
    simp [Rollout.Write, Rollout.rotate, hcl, hb]
  · intro e id p1 hb hne
    simp [Rollout.Write, Rollout.rotate, hcl, hb, hne]
  · intro id hb
    simp [Rollout.Write, hcl, hb]

theorem C3_rotation_step_witness :
    Rollout.Write ⟨RotateSecondly, 0, "", [], "", false, some (0, 100), 1⟩ ⟨101⟩
        none (3, none) =
      (⟨RotateSecondly, 0, "", [], "", false, some (1, 101), 2⟩, (3, none),
       ⟨some 1, some 0⟩) := by
  have h := ((C3_rotation_step ⟨RotateSecondly, 0, "", [], "", false, none, 0⟩
      ⟨100⟩ ⟨101⟩ (3, none) (3, none) rfl).1 rfl (by decide)).2
  exact h.trans (by decide)

/-- C4: Close lifecycle.  The first `Close` marks the writer closed and, when a
destination buffer exists, closes it and returns its result (with no buffer it
returns success); every later `Close` returns success without touching the
buffer; after the first `Close` every `Write` returns `ErrClosed` with zero
bytes and changes nothing; on a writer that never wrote, `Flush` returns
success with no effect. -/
theorem C4_close_lifecycle (r : Rollout) (closeRes closeRes2 : Option GoErr)
    (t : GoTime) (fres : Option GoErr) (bres : Nat × Option GoErr)
    (hcl : r.closed = false) :
    ((Rollout.Close r closeRes).1).closed = true ∧
    (r.buf = none → Rollout.Close r closeRes = ({ r with closed := true }, none, none)) ∧
    (∀ id pos, r.buf = some (id, pos) →
      Rollout.Close r closeRes = ({ r with closed := true }, closeRes, some id)) ∧
    Rollout.Close (Rollout.Close r closeRes).1 closeRes2
      = ((Rollout.Close r closeRes).1, none, none) ∧
    Rollout.Write (Rollout.Close r closeRes).1 t fres bres
      = ((Rollout.Close r closeRes).1, (0, some GoErr.closed), ⟨none, none⟩) ∧
    (r.buf = none → ∀ flushRes, Rollout.Flush r flushRes = none) := by
  cases hb : r.buf with
  | none =>
    refine ⟨?_, ?_, ?_, ?_, ?_, ?_⟩ <;>
      simp [Rollout.Close, Rollout.Write, Rollout.Flush, hcl, hb]
  | some bb =>
    obtain ⟨id0, pos0⟩ := bb
    refine ⟨?_, ?_, ?_, ?_, ?_, ?_⟩
    · simp [Rollout.Close, hcl, hb]
    · simp [hb]
    · intro id pos h
      simp only [hb, Option.some.injEq, Prod.mk.injEq] at h
      obtain ⟨h1, h2⟩ := h
      subst h1
      simp [Rollout.Close, hcl, hb]
    · simp [Rollout.Close, hcl, hb]
    · simp [Rollout.Close, Rollout.Write, hcl, hb]
    · simp [hb]

theorem C4_close_lifecycle_witness :
    Rollout.Close ⟨RotateDaily, 0, "", [], "", false, some (0, 17), 1⟩
        (some (GoErr.sinkErr 9))
      = (⟨RotateDaily, 0, "", [], "", true, some (0, 17), 1⟩,
         some (GoErr.sinkErr 9), some 0) :=
  ((C4_close_lifecycle ⟨RotateDaily, 0, "", [], "", false, some (0, 17), 1⟩
      (some (GoErr.sinkErr 9)) none ⟨0⟩ none (0, none) rfl).2.2.1 0 17 rfl).trans
    (by decide)

/-- C5: `BufferWriter.Flush` semantics.  A latched error returns immediately
with no sink I/O and no state change; an empty buffer returns success; otherwise
the held bytes go to the sink: full acceptance without error resets the held
bytes; acceptance of fewer bytes with no explicit error becomes
`io.ErrShortWrite`; on any failure the unwritten tail is compacted to the front
(`data.drop n`, the bytes still pending) and the error is latched and
returned. -/
theorem C5_flush_semantics {σ : Type} (S : SinkModel σ) (b : BufferWriter) (s : σ) :
    (∀ e, b.err = some e → BufferWriter.Flush S b s = (b, s, some e)) ∧
    (b.err = none → b.data = [] → BufferWriter.Flush S b s = (b, s, none)) ∧
    (∀ s' n, b.err = none → b.data ≠ [] → S.write s b.data = (s', n, none) →
      b.data.length ≤ n →
      BufferWriter.Flush S b s = ({ b with data := [] }, s', none)) ∧
    (∀ s' n, b.err = none → b.data ≠ [] → S.write s b.data = (s', n, none) →
      n < b.data.length →
      BufferWriter.Flush S b s =
        ({ b with data := b.data.drop n, err := some GoErr.shortWrite }, s',
         some GoErr.shortWrite)) ∧
    (∀ s' n e, b.err = none → b.data ≠ [] → S.write s b.data = (s', n, some e) →
      BufferWriter.Flush S b s =
        ({ b with data := b.data.drop n, err := some e }, s', some e)) := by
  refine ⟨?_, ?_, ?_, ?_, ?_⟩
  · intro e he
    simp [BufferWriter.Flush, he]
  · intro he hd
    simp [BufferWriter.Flush, he, hd]
  · intro s' n he hd hw hn
    simp [BufferWriter.Flush, he, hd, hw, not_lt.mpr hn]
  · intro s' n he hd hw hn
    simp [BufferWriter.Flush, he, hd, hw, hn]
  · intro s' n e he hd hw
    simp [BufferWriter.Flush, he, hd, hw]

theorem C5_flush_semantics_witness :
    BufferWriter.Flush zeroFailSink ⟨none, [1, 2, 3], 3⟩ ()
      = (⟨some (GoErr.sinkErr 0), [1, 2, 3], 3⟩, (), some (GoErr.sinkErr 0)) :=
  ((C5_flush_semantics zeroFailSink ⟨none, [1, 2, 3], 3⟩ ()).2.2.2.2 () 0
      (GoErr.sinkErr 0) rfl (by decide) rfl).trans (by decide)

/-- C8: the latched-error append quirk.  With an error latched, `Write` never
touches the sink: it copies what fits of the input into the remaining capacity,
advances the held count, and returns the copied count with a nil error — the
latched error is not rechecked by this append path. -/
theorem C8_latched_append {σ : Type} (S : SinkModel σ) (fuel : Nat)
    (b : BufferWriter) (s : σ) (p : List Nat) (e : GoErr) (he : b.err = some e) :
    BufferWriter.Write S fuel b s p =
      some ({ b with data := b.data ++ p.take (min b.Available p.length) }, s,
            min b.Available p.length, none) := by
  unfold BufferWriter.Write
  rw [if_neg]
  · simp [he]

theorem C8_latched_append_witness :
    BufferWriter.Write bytesBuffer 0 ⟨some (GoErr.sinkErr 0), [1], 3⟩ [] [5, 6]
      = some (⟨some (GoErr.sinkErr 0), [1, 5, 6], 3⟩, [], 2, none) :=
  (C8_latched_append bytesBuffer 0 ⟨some (GoErr.sinkErr 0), [1], 3⟩ [] [5, 6]
      (GoErr.sinkErr 0) rfl).trans (by decide)

/-- Flushing a nonempty, error-free buffer through the all-accepting sink
appends its bytes to the sink and empties it. -/
theorem Flush_bytesBuffer (d : List Nat) (c : Nat) (s : List Nat) (hd : d ≠ []) :
    BufferWriter.Flush bytesBuffer ⟨none, d, c⟩ s = (⟨none, [], c⟩, s ++ d, none) := by
  simp [BufferWriter.Flush, bytesBuffer, hd]

/-- Over the all-accepting sink, the overflow loop started on an empty buffer
delivers the whole input: every cycle copies at most `c` bytes and the flush
empties the buffer again.  Fuel `n + 1` with `p.length ≤ n` suffices. -/
theorem writeLoop_bytesBuffer_empty :
    ∀ (n : Nat) (p : List Nat), p.length ≤ n → ∀ (c : Nat) (s : List Nat) (nn : Nat),
      0 < c →
      BufferWriter.writeLoop bytesBuffer (n + 1) ⟨none, [], c⟩ s p nn =
        some (⟨none, [], c⟩, s ++ p, nn + p.length) := by
  intro n
  induction n with
  | zero =>
    intro p hp c s nn hc
    have hpn : p = [] := List.eq_nil_of_length_eq_zero (Nat.le_zero.mp hp)
    subst hpn
    simp [BufferWriter.writeLoop]
  | succ n ih =>
    intro p hp c s nn hc
    cases p with
    | nil => simp [BufferWriter.writeLoop]
    | cons a q =>
      have hkpos : 0 < min c (a :: q).length := by
        simp [Nat.lt_min, hc]
      have hmle : min c (a :: q).length ≤ (a :: q).length := Nat.min_le_right _ _
      have htake : ((a :: q).take (min c (a :: q).length)) ≠ [] := by
        intro hnil
        have hl := congrArg List.length hnil
        rw [List.length_take] at hl
        simp only [List.length_nil] at hl
        omega
      have step :
          BufferWriter.writeLoop bytesBuffer (n + 1 + 1) ⟨none, [], c⟩ s (a :: q) nn
            = BufferWriter.writeLoop bytesBuffer (n + 1)
                (BufferWriter.Flush bytesBuffer
                    ⟨none, (a :: q).take (min c (a :: q).length), c⟩ s).1
                (BufferWriter.Flush bytesBuffer
                    ⟨none, (a :: q).take (min c (a :: q).length), c⟩ s).2.1
                ((a :: q).drop (min c (a :: q).length))
                (nn + min c (a :: q).length) := rfl
      rw [step, Flush_bytesBuffer _ _ _ htake]
      dsimp only
      have hdrop : ((a :: q).drop (min c (a :: q).length)).length ≤ n := by
        rw [List.length_drop]
        have hp2 : (a :: q).length ≤ n + 1 := hp
        omega
      rw [ih _ hdrop c _ _ hc]
      rw [List.append_assoc, List.take_append_drop]
      have hlen : nn + min c (a :: q).length
            + ((a :: q).drop (min c (a :: q).length)).length
          = nn + (a :: q).length := by
        rw [List.length_drop]
        omega
      rw [hlen]

/-- Once an error is latched and the buffer is full, the overflow loop makes no
progress: the copy adds nothing (`Available = 0`) and the flush is a no-op, so
no amount of fuel reaches the end — the source's `for len(p) > 0` loop runs
forever. -/
theorem writeLoop_latched_stuck {σ : Type} (S : SinkModel σ) (bdata : List Nat)
    (bcap : Nat) (e : GoErr) (hfull : bcap ≤ bdata.length) :
    ∀ (fuel : Nat) (s : σ) (p : List Nat) (nn : Nat), p ≠ [] →
      BufferWriter.writeLoop S fuel ⟨some e, bdata, bcap⟩ s p nn = none := by
  intro fuel
  induction fuel with
  | zero => intro s p nn _; rfl
  | succ fuel ih =>
    intro s p nn hp
    cases p with
    | nil => exact absurd rfl hp
    | cons a q =>
      have hk : min (bcap - bdata.length) (a :: q).length = 0 := by
        have h0 : bcap - bdata.length = 0 := Nat.sub_eq_zero_of_le hfull
        simp [h0]
      have step :
          BufferWriter.writeLoop S (fuel + 1) ⟨some e, bdata, bcap⟩ s (a :: q) nn
            = BufferWriter.writeLoop S fuel
                (BufferWriter.Flush S
                    ⟨some e,
                     bdata ++ (a :: q).take (min (bcap - bdata.length) (a :: q).length),
                     bcap⟩ s).1
                (BufferWriter.Flush S
                    ⟨some e,
                     bdata ++ (a :: q).take (min (bcap - bdata.length) (a :: q).length),
                     bcap⟩ s).2.1
                ((a :: q).drop (min (bcap - bdata.length) (a :: q).length))
                (nn + min (bcap - bdata.length) (a :: q).length) := rfl
      rw [step, hk]
      simp only [List.take_zero, List.append_nil, List.drop_zero, Nat.add_zero]
      have hfl : BufferWriter.Flush S ⟨some e, bdata, bcap⟩ s
          = (⟨some e, bdata, bcap⟩, s, some e) := rfl
      rw [hfl]
      exact ih s (a :: q) nn hp

/-- C9: evaluation of `BufferWriter.Write` at the failing input.  With the
buffer full (capacity 1 holding one byte), input of two bytes, and a sink that
fails having accepted zero bytes, `Write` does not return for ANY fuel: the
first cycle latches the flush error, and every later cycle copies nothing and
flushes nothing — the source's `for len(p) > 0` loop runs forever. -/
theorem C9_write_nonterminating (fuel : Nat) :
    BufferWriter.Write zeroFailSink fuel ⟨none, [37], 1⟩ () [1, 2] = none := by
  have hloop : ∀ f : Nat,
      BufferWriter.writeLoop zeroFailSink f ⟨none, [37], 1⟩ () [1, 2] 0 = none := by
    intro f
    cases f with
    | zero => rfl
    | succ f =>
      have step :
          BufferWriter.writeLoop zeroFailSink (f + 1) ⟨none, [37], 1⟩ () [1, 2] 0
            = BufferWriter.writeLoop zeroFailSink f
                ⟨some (GoErr.sinkErr 0), [37], 1⟩ () [1, 2] 0 := rfl
      rw [step]
      exact writeLoop_latched_stuck zeroFailSink [37] 1 (GoErr.sinkErr 0)
        (by decide) f () [1, 2] 0 (by decide)
  unfold BufferWriter.Write
  rw [if_pos (by exact ⟨by decide, rfl⟩), if_neg (by decide), hloop fuel]

/-- C1 (counterexample): capacity-4 buffer holding 2 bytes, input of 4 bytes,
sink that accepts 2 bytes and then errors.  The source's loop does NOT stop at
the flush error: it keeps copying and returns count 4, whereas cycles that stop
"until ... a flush error occurs" (`specOverflowCycles`, the claim's words)
return count 2. -/
theorem C1_counterexample :
    BufferWriter.Write acceptTwoThenFailSink 50 ⟨none, [9, 9], 4⟩ 0 [1, 2, 3, 4]
      = some (⟨some (GoErr.sinkErr 1), [1, 2, 3, 4], 4⟩, 1, 4, some (GoErr.sinkErr 1)) ∧
    specOverflowCycles acceptTwoThenFailSink 50 ⟨none, [9, 9], 4⟩ 0 [1, 2, 3, 4] 0
      = some (⟨some (GoErr.sinkErr 1), [1, 2], 4⟩, 1, 2) ∧
    (4 : Nat) ≠ 2 := by
  refine ⟨by decide, by decide, by decide⟩

/-- C1 (amended): overflow behaviour of `BufferWriter.Write` when the input
exceeds the available capacity and no error is latched.
(a) With an empty buffer the whole input goes to the sink in one call, the
buffer still holds zero bytes, and the sink's error (if any) is latched and
returned with its count.
(b) Otherwise the copy-then-flush cycles run until the ENTIRE input is
consumed; when every flush succeeds (all-accepting sink) all held and input
bytes reach the sink in order and the returned count is the full input length.
(c) A flush error does not stop the cycles: with an error already latched the
loop keeps copying the remainder into available capacity (flushes are no-ops);
shown here for a remainder that fits, in which case the loop ends with the
bytes absorbed and counted. -/
theorem C1_overflow_write :
    (∀ (σ : Type) (S : SinkModel σ) (fuel : Nat) (b : BufferWriter) (s : σ)
        (p : List Nat), b.err = none → b.data = [] → p.length > b.cap →
      BufferWriter.Write S fuel b s p =
        some ({ b with err := (S.write s p).2.2 }, (S.write s p).1,
              (S.write s p).2.1, (S.write s p).2.2)) ∧
    (∀ (d sl p : List Nat) (c : Nat), d ≠ [] → 0 < c →
        p.length > c - d.length →
      BufferWriter.Write bytesBuffer (p.length + 2) ⟨none, d, c⟩ sl p =
        some (⟨none, [], c⟩, sl ++ d ++ p, p.length, none)) ∧
    (∀ (σ : Type) (S : SinkModel σ) (fuel : Nat) (d : List Nat) (c : Nat) (s : σ)
        (p : List Nat) (e : GoErr) (nn : Nat), p ≠ [] → p.length ≤ c - d.length →
      BufferWriter.writeLoop S (fuel + 2) ⟨some e, d, c⟩ s p nn =
        some (⟨some e, d ++ p, c⟩, s, nn + p.length)) := by
  refine ⟨?_, ?_, ?_⟩
  · intro σ S fuel b s p he hd hp
    have hav : b.Available = b.cap := by simp [BufferWriter.Available, hd]
    have hbf : b.Buffered = 0 := by simp [BufferWriter.Buffered, hd]
    unfold BufferWriter.Write
    rw [if_pos ⟨by rw [hav]; exact hp, he⟩, if_pos hbf]
  · intro d sl p c hd hc hp
    have hbf : (⟨none, d, c⟩ : BufferWriter).Buffered ≠ 0 := by
      simp [BufferWriter.Buffered, hd]
    have hploop :
        BufferWriter.writeLoop bytesBuffer (p.length + 2) ⟨none, d, c⟩ sl p 0
          = some (⟨none, [], c⟩, sl ++ d ++ p, p.length) := by
      cases p with
      | nil => simp at hp
      | cons a q =>
        have hk : min (c - d.length) (a :: q).length = c - d.length :=
          Nat.min_eq_left (Nat.le_of_lt hp)
        have htake : d ++ (a :: q).take (min (c - d.length) (a :: q).length) ≠ [] := by
          simp [hd]
        have step :
            BufferWriter.writeLoop bytesBuffer ((a :: q).length + 2) ⟨none, d, c⟩ sl
                (a :: q) 0
              = BufferWriter.writeLoop bytesBuffer ((a :: q).length + 1)
                  (BufferWriter.Flush bytesBuffer
                      ⟨none, d ++ (a :: q).take (min (c - d.length) (a :: q).length),
                       c⟩ sl).1
                  (BufferWriter.Flush bytesBuffer
                      ⟨none, d ++ (a :: q).take (min (c - d.length) (a :: q).length),
                       c⟩ sl).2.1
                  ((a :: q).drop (min (c - d.length) (a :: q).length))
                  (0 + min (c - d.length) (a :: q).length) := rfl
        rw [step, Flush_bytesBuffer _ _ _ htake]
        dsimp only
        have hdrop : ((a :: q).drop (min (c - d.length) (a :: q).length)).length
            ≤ (a :: q).length := by
          rw [List.length_drop]
          omega
        rw [writeLoop_bytesBuffer_empty ((a :: q).length) _ hdrop c _ _ hc]
        have hs : sl ++ (d ++ (a :: q).take (min (c - d.length) (a :: q).length))
              ++ (a :: q).drop (min (c - d.length) (a :: q).length)
            = sl ++ d ++ (a :: q) := by
          rw [List.append_assoc sl, List.append_assoc d, List.take_append_drop,
              ← List.append_assoc]
        have hn : 0 + min (c - d.length) (a :: q).length
              + ((a :: q).drop (min (c - d.length) (a :: q).length)).length
            = (a :: q).length := by
          rw [List.length_drop]
          have := Nat.min_le_right (c - d.length) (a :: q).length
          omega
        rw [hs, hn]
    unfold BufferWriter.Write
    rw [if_pos ⟨hp, rfl⟩, if_neg hbf, hploop]
  · intro σ S fuel d c s p e nn hp hfit
    cases p with
    | nil => exact absurd rfl hp
    | cons a q =>
      have hk : min (c - d.length) (a :: q).length = (a :: q).length :=
        Nat.min_eq_right hfit
      have step :
          BufferWriter.writeLoop S (fuel + 2) ⟨some e, d, c⟩ s (a :: q) nn
            = BufferWriter.writeLoop S (fuel + 1)
                (BufferWriter.Flush S
                    ⟨some e, d ++ (a :: q).take (min (c - d.length) (a :: q).length),
                     c⟩ s).1
                (BufferWriter.Flush S
                    ⟨some e, d ++ (a :: q).take (min (c - d.length) (a :: q).length),
                     c⟩ s).2.1
                ((a :: q).drop (min (c - d.length) (a :: q).length))
                (nn + min (c - d.length) (a :: q).length) := rfl
      rw [step, hk, List.take_length, List.drop_length]
      have hfl : BufferWriter.Flush S ⟨some e, d ++ (a :: q), c⟩ s
          = (⟨some e, d ++ (a :: q), c⟩, s, some e) := rfl
      rw [hfl]
      rfl

theorem C1_overflow_write_witness :
    BufferWriter.Write bytesBuffer 5 ⟨none, [9], 2⟩ [] [5, 6, 7]
      = some (⟨none, [], 2⟩, [9, 5, 6, 7], 3, none) :=
  (C1_overflow_write.2.1 [9] [] [5, 6, 7] 2 (by decide) (by decide)
      (by decide)).trans (by decide)

/-- C6 (counterexample): in the §8 scenario (capacity 10, error-free recording
sink) the second write of 5 bytes overflows a full buffer and triggers
flush-then-fill cycles, so after it the sink has received 15 bytes, not the 0
the claim states (the repository's own `TestFileBufferWrite` asserts 15). -/
theorem C6_counterexample :
    BufferWriter.Write bytesBuffer 20 ⟨none, [], 10⟩ [] (List.replicate 10 1)
      = some (⟨none, List.replicate 10 1, 10⟩, [], 10, none) ∧
    BufferWriter.Write bytesBuffer 20 ⟨none, List.replicate 10 1, 10⟩ []
        (List.replicate 5 2)
      = some (⟨none, [], 10⟩, List.replicate 10 1 ++ List.replicate 5 2, 5, none) ∧
    (List.replicate 10 1 ++ List.replicate 5 2).length = 15 ∧ (15 : Nat) ≠ 0 := by
  refine ⟨by decide, by decide, by decide, by decide⟩

/-- C6 (amended): capacity-10 `BufferWriter` over an error-free sink; writes of
10 then 5 then 15 bytes.  After the first write the sink has received 0 bytes
(all buffered); the second write flushes the full buffer and then its own bytes,
leaving the sink with 15; the third write finds the buffer empty and goes
straight to the sink, for a total of 30 bytes delivered. -/
theorem C6_buffer_scenario :
    BufferWriter.Write bytesBuffer 20 ⟨none, [], 10⟩ [] (List.replicate 10 1)
      = some (⟨none, List.replicate 10 1, 10⟩, [], 10, none) ∧
    ([] : List Nat).length = 0 ∧
    BufferWriter.Write bytesBuffer 20 ⟨none, List.replicate 10 1, 10⟩ []
        (List.replicate 5 2)
      = some (⟨none, [], 10⟩, List.replicate 10 1 ++ List.replicate 5 2, 5, none) ∧
    (List.replicate 10 1 ++ List.replicate 5 2).length = 15 ∧
    BufferWriter.Write bytesBuffer 20 ⟨none, [], 10⟩
        (List.replicate 10 1 ++ List.replicate 5 2) (List.replicate 15 3)
      = some (⟨none, [], 10⟩,
          (List.replicate 10 1 ++ List.replicate 5 2) ++ List.replicate 15 3,
          15, none) ∧
    ((List.replicate 10 1 ++ List.replicate 5 2) ++ List.replicate 15 3).length
      = 30 := by
  refine ⟨by decide, by decide, by decide, by decide, by decide, by decide⟩

/-- C7: destination resolution, evaluated at the failing input and at the
intended scenario.  The claim's literal template `test-{{Time}}.log` (no dot)
fails to parse — `Time` is an undefined function — and on that failure `New`
does NOT fall back: its fallback line calls `Parse` on the nil `*Template`
returned by the failed parse, so `New` panics (`mkTemplate _ = none`).  With
the Go spelling of the placeholder, `test-{{.Time}}.log`, parsing succeeds and
the destination — the root joined with the rendered template — is
`test-` ++ formatted date ++ `.log` at every instant, and is
`test-1970-01-01.log` at 1970-01-01T00:00:00Z, as the claim intends. -/
theorem C7_destination_panic (u : Int) :
    parseTpl "test-\x7b\x7bTime\x7d\x7d.log" = none ∧
    mkTemplate "test-\x7b\x7bTime\x7d\x7d.log" = none ∧
    mkTemplate "test-\x7b\x7b.Time\x7d\x7d.log"
      = some [TplItem.lit "test-", TplItem.field "Time", TplItem.lit ".log"] ∧
    Rollout.destination
        ⟨RotateDaily, 0, "", [TplItem.lit "test-", TplItem.field "Time",
          TplItem.lit ".log"], "2006-01-02", false, none, 0⟩ "h" 7 ⟨u⟩
      = "test-" ++ (GoTime.Format ⟨u⟩ "2006-01-02" ++ ".log") ∧
    Rollout.destination
        ⟨RotateDaily, 0, "", [TplItem.lit "test-", TplItem.field "Time",
          TplItem.lit ".log"], "2006-01-02", false, none, 0⟩ "h" 7 ⟨0⟩
      = "test-1970-01-01.log" := by
  refine ⟨by decide, by decide, by decide, ?_, by decide⟩
  show "test-" ++ ((if ("Time" : String) = "Host" then "h"
      else if ("Time" : String) = "Pid" then "7"
      else if ("Time" : String) = "Time" then GoTime.Format ⟨u⟩ "2006-01-02"
      else "<no value>") ++ (".log" ++ "")) = _
  rw [if_neg (by decide), if_neg (by decide), if_pos rfl,
      show (".log" : String) ++ "" = ".log" from rfl]
